import Mathlib

/- Verification of the Google-Sheets-backed data layer of
   milos513518/health-tracker (src/app.py): a Streamlit dashboard whose
   storage is one worksheet.  The worksheet is modelled as its
   get_all_values() result (a list of rows of strings); a pandas DataFrame
   is modelled by `Frame` with typed cells, where `none` inside a cell
   models NaT/NaN. -/

namespace HealthTracker

/-- Calendar date as written to and read back from the sheet. -/
structure Date where
  year : Nat
  month : Nat
  day : Nat
deriving DecidableEq, Repr

/-- One cell of the in-memory table: a raw sheet string, or the result of
the pandas datetime/numeric coercions, where `none` models NaT/NaN. -/
inductive Cell where
  | str : String → Cell
  | date : Option Date → Cell
  | num : Option ℚ → Cell
deriving DecidableEq, Repr

/-- Model of a pandas DataFrame: column names plus rows of cells. -/
structure Frame where
  cols : List String
  rows : List (List Cell)
deriving DecidableEq, Repr

/-- The header load_data expects, in the fixed order of src/app.py:133. -/
def sixCols : List String := ["date", "ahi", "leak", "coherence", "energy", "notes"]

/-- The four numeric metric columns (src/app.py:142 and :187). -/
def numericCols : List String := ["ahi", "leak", "coherence", "energy"]

/-- Numeric value of a decimal digit character. -/
def digitVal (c : Char) : Option Nat :=
  if c.isDigit then some (c.toNat - 48) else none

/-- Decimal digit character of n mod 10 (zero-padded formatting). -/
def digitChar (n : Nat) : Char := Char.ofNat (48 + n % 10)

/-- Values of a list of digit characters, none if one is not a digit. -/
def allDigits : List Char → Option (List Nat)
  | [] => some []
  | c :: cs =>
    match digitVal c, allDigits cs with
    | some d, some ds => some (d :: ds)
    | _, _ => none

/-- Gregorian leap-year rule. -/
def isLeap (y : Nat) : Bool := (y % 4 == 0 && y % 100 != 0) || y % 400 == 0

/-- Days in a month of the Gregorian calendar. -/
def daysInMonth (y m : Nat) : Nat :=
  if m = 2 then (if isLeap y then 29 else 28)
  else if m = 4 ∨ m = 6 ∨ m = 9 ∨ m = 11 then 30
  else 31

/-- Model of pd.to_datetime(-, errors="coerce") on one cell, restricted to
the ISO YYYY-MM-DD layout that save_entry itself writes; any other string
coerces to NaT (`none`).  pandas accepts further layouts; no claim
exercises them. -/
def parseDate (s : String) : Option Date :=
  match s.toList with
  | [y1, y2, y3, y4, '-', m1, m2, '-', d1, d2] =>
    match allDigits [y1, y2, y3, y4, m1, m2, d1, d2] with
    | some [a, b, c, d, e, f, g, h] =>
      let y := 1000 * a + 100 * b + 10 * c + d
      let mo := 10 * e + f
      let da := 10 * g + h
      if 1 ≤ mo ∧ mo ≤ 12 ∧ 1 ≤ da ∧ da ≤ daysInMonth y mo then
        some { year := y, month := mo, day := da }
      else none
    | _ => none
  | _ => none

/-- Split a character list at its single decimal point; none when there is
more than one point. -/
def splitDot : List Char → List Char → Option (List Char × List Char)
  | acc, [] => some (acc.reverse, [])
  | acc, '.' :: rest =>
    if rest.contains '.' then none else some (acc.reverse, rest)
  | acc, c :: rest => splitDot (c :: acc) rest

/-- Value of a digit string; the empty string counts as 0 (for "5." and
".5" shaped literals), none on a non-digit. -/
def digitsVal (cs : List Char) : Option Nat :=
  (allDigits cs).map (fun ds => ds.foldl (fun a d => 10 * a + d) 0)

/-- Whitespace stripped by Python's float() around a numeric literal. -/
def isSpc (c : Char) : Bool := c == ' ' || c == '\t' || c == '\n' || c == '\r'

/-- Strip leading and trailing whitespace from a character list. -/
def trimChars (cs : List Char) : List Char :=
  ((cs.dropWhile isSpc).reverse.dropWhile isSpc).reverse

/-- Model of pd.to_numeric(-, errors="coerce") on one cell: a plain
decimal literal with optional sign and at most one point, surrounding
whitespace stripped; anything else coerces to NaN (`none`). -/
def parseNum (s : String) : Option ℚ :=
  match trimChars s.toList with
  | [] => none
  | cs =>
    let sr : Bool × List Char :=
      match cs with
      | '-' :: r => (true, r)
      | '+' :: r => (false, r)
      | _ => (false, cs)
    match splitDot [] sr.2 with
    | none => none
    | some (ip, fp) =>
      if ip = [] ∧ fp = [] then none
      else
        match digitsVal ip, digitsVal fp with
        | some i, some fr =>
          let v : ℚ := (i : ℚ) + (fr : ℚ) / ((10 : ℚ) ^ fp.length)
          some (if sr.1 then -v else v)
        | _, _ => none

/-- Model of date.strftime("%Y-%m-%d") (src/app.py:163), exact for years
1000..9999. -/
def fmtDate (d : Date) : String :=
  String.mk [digitChar (d.year / 1000), digitChar (d.year / 100),
             digitChar (d.year / 10), digitChar d.year, '-',
             digitChar (d.month / 10), digitChar d.month, '-',
             digitChar (d.day / 10), digitChar d.day]

/-- Dates the strftime model formats faithfully (and on which formatting
then ISO parsing is the identity). -/
def validDate (d : Date) : Prop :=
  1000 ≤ d.year ∧ d.year ≤ 9999 ∧ 1 ≤ d.month ∧ d.month ≤ 12 ∧
    1 ≤ d.day ∧ d.day ≤ daysInMonth d.year d.month

instance (d : Date) : Decidable (validDate d) := by
  unfold validDate; infer_instance

/-- Decimal digits of the fraction r/den produced by long division; the
fuel bounds the number of emitted digits. -/
def fracDigits (den : Nat) : Nat → Nat → List Char
  | _, 0 => []
  | r, fuel + 1 =>
    if r = 0 then []
    else digitChar (r * 10 / den) :: fracDigits den (r * 10 % den) fuel

/-- Model of Python str() on a metric value, as an exact decimal (float
artifacts such as the trailing ".0" of str(5.0) are elided). -/
def pyStr (q : ℚ) : String :=
  let a : ℚ := if q < 0 then -q else q
  let ip : Nat := a.num.toNat / a.den
  let r : Nat := a.num.toNat % a.den
  let sign : String := if q < 0 then "-" else ""
  if r = 0 then sign ++ toString ip
  else sign ++ toString ip ++ "." ++ String.mk (fracDigits a.den r 40)

/-- Raw string content of a cell (sheet cells start out as strings). -/
def cellStr : Cell → String
  | Cell.str s => s
  | _ => ""

/-- Cell-level effect of the date coercion of src/app.py:139. -/
def toDatetimeCell (c : Cell) : Cell := Cell.date (parseDate (cellStr c))

/-- Cell-level effect of the numeric coercion of src/app.py:144. -/
def toNumericCell (c : Cell) : Cell := Cell.num (parseNum (cellStr c))

/-- df[c] = g(df[c]); `none` models the KeyError pandas raises when column
c is absent (src/app.py:139 and :144). -/
def coerceCol (f : Frame) (c : String) (g : Cell → Cell) : Option Frame :=
  match f.cols.findIdx? (fun s => s == c) with
  | none => none
  | some i =>
    some { cols := f.cols,
           rows := f.rows.map (fun r => r.set i (g (r.getD i (Cell.str "")))) }

/-- The numeric-coercion loop of src/app.py:143-144. -/
def applyNumeric : Frame → List String → Option Frame
  | f, [] => some f
  | f, c :: cs =>
    match coerceCol f c toNumericCell with
    | none => none
    | some f2 => applyNumeric f2 cs

/-- Dense encoding of a date, monotone in (year, month, day). -/
def dateEnc (d : Date) : Nat := d.year * 10000 + d.month * 100 + d.day

/-- Sort key of df.sort_values("date", ascending=False): smaller rank
first, so valid dates descend and NaT rows go last (pandas default
na_position="last"). -/
def rowRank (cols : List String) (r : List Cell) : Nat :=
  match cols.findIdx? (fun s => s == "date") with
  | none => 0
  | some i =>
    match r.getD i (Cell.str "") with
    | Cell.date (some d) => 100000000 - dateEnc d
    | _ => 100000001

/-- Insertion into a rank-sorted row list. -/
def insertRanked (k : List Cell → Nat) (x : List Cell) :
    List (List Cell) → List (List Cell)
  | [] => [x]
  | y :: ys => if k x ≤ k y then x :: y :: ys else y :: insertRanked k x ys

/-- Insertion sort of rows by rank (a deterministic refinement of the
pandas quicksort; all claims are order-insensitive beyond the key). -/
def sortRows (k : List Cell → Nat) : List (List Cell) → List (List Cell)
  | [] => []
  | x :: xs => insertRanked k x (sortRows k xs)

/-- df.sort_values("date", ascending=False) (src/app.py:147). -/
def sortFrame (f : Frame) : Frame :=
  { cols := f.cols, rows := sortRows (rowRank f.cols) f.rows }

/-- Body of load_data once a worksheet handle exists (src/app.py:127-152);
`.error` models an exception reaching the try/except.  The first two arms
are the len(data) <= 1 early return; the third processes header plus a
nonempty body. -/
def loadCore : List (List String) → Except Unit Frame
  | [] => .ok { cols := sixCols, rows := [] }
  | [_] => .ok { cols := sixCols, rows := [] }
  | header :: r1 :: rs =>
    if (r1 :: rs).all (fun r => r.length == header.length) then
      match coerceCol { cols := header,
                        rows := (r1 :: rs).map (fun r => r.map Cell.str) }
          "date" toDatetimeCell with
      | none => .error ()
      | some f1 =>
        match applyNumeric f1 numericCols with
        | none => .error ()
        | some f2 => .ok (sortFrame f2)
    else .error ()

/-- Model of load_data (src/app.py:120-152).  The argument is the
worksheet's get_all_values() result, `none` when get_google_sheet failed;
the except branch returns the empty pd.DataFrame(). -/
def load_data (ws : Option (List (List String))) : Frame :=
  match ws with
  | none => { cols := [], rows := [] }
  | some data =>
    match loadCore data with
    | .ok f => f
    | .error _ => { cols := [], rows := [] }

/-- Cell-wise effect of load_data's coercions on one six-field row with
the canonical header. -/
def coercedRow (r : List String) : List Cell :=
  match r with
  | [d, a, l, c, e, n] =>
    [Cell.date (parseDate d), Cell.num (parseNum a), Cell.num (parseNum l),
     Cell.num (parseNum c), Cell.num (parseNum e), Cell.str n]
  | _ => []

/-- Process state seen by save_entry: the backing worksheet (`none` when
get_google_sheet fails), the st.cache_data entry holding the last
load_data result, and whether the remote append_row call raises. -/
structure AppState where
  worksheet : Option (List (List String))
  cache : Option Frame
  appendFails : Bool
deriving DecidableEq, Repr

/-- Model of save_entry (src/app.py:154-180): format the row, append it,
then clear the cache; on no connection or a raising append, report False
and touch nothing. -/
def save_entry (st : AppState) (d : Date) (ahi leak coherence energy : ℚ)
    (notes : String) : AppState × Bool :=
  match st.worksheet with
  | none => (st, false)
  | some ws =>
    if st.appendFails then (st, false)
    else
      ({ st with
          worksheet := some (ws ++
            [[fmtDate d, pyStr ahi, pyStr leak, pyStr coherence,
              pyStr energy, notes]]),
          cache := none }, true)

/-- Numeric content of a cell, none for NaN or non-numeric content. -/
def cellNum : Cell → Option ℚ
  | Cell.num v => v
  | _ => none

/-- One named column of the frame as a numeric series. -/
def getCol (f : Frame) (c : String) : Option (List (Option ℚ)) :=
  match f.cols.findIdx? (fun s => s == c) with
  | none => none
  | some i => some (f.rows.map (fun r => cellNum (r.getD i (Cell.str ""))))

/-- df[numeric_cols]: the four metric series; `none` models the KeyError
pandas raises when one is absent (src/app.py:188). -/
def numericColumns (f : Frame) : Option (List (List (Option ℚ))) :=
  match getCol f "ahi", getCol f "leak", getCol f "coherence",
      getCol f "energy" with
  | some a, some l, some c, some e => some [a, l, c, e]
  | _, _, _, _ => none

/-- Positions where both series have a value: pandas corr works pairwise
on complete observations. -/
def completePairs : List (Option ℚ) → List (Option ℚ) → List (ℚ × ℚ)
  | some a :: xs, some b :: ys => (a, b) :: completePairs xs ys
  | none :: xs, _ :: ys => completePairs xs ys
  | _ :: xs, none :: ys => completePairs xs ys
  | _, _ => []

/-- Arithmetic mean (0 on the empty list, by rational division). -/
def meanQ (l : List ℚ) : ℚ := l.sum / (l.length : ℚ)

/-- Centered cross sum of a pair list. -/
def sxyOf (ps : List (ℚ × ℚ)) : ℚ :=
  (ps.map (fun p =>
    (p.1 - meanQ (ps.map Prod.fst)) * (p.2 - meanQ (ps.map Prod.snd)))).sum

/-- Centered sum of squares of a series. -/
def sxxOf (l : List ℚ) : ℚ := sxyOf (l.map (fun a => (a, a)))

/-- Pearson correlation as pandas DataFrame.corr computes it; the
normalization constants cancel, leaving Sxy / sqrt(Sxx Syy).  An undefined
0/0 entry, NaN in pandas, is 0 here by Lean's division. -/
noncomputable def pearsonR (xs ys : List (Option ℚ)) : ℝ :=
  ((sxyOf (completePairs xs ys) : ℚ) : ℝ) /
    Real.sqrt (((sxxOf ((completePairs xs ys).map Prod.fst) : ℚ) : ℝ) *
      ((sxxOf ((completePairs xs ys).map Prod.snd) : ℚ) : ℝ))

/-- The pairwise correlation matrix df[numeric_cols].corr(). -/
noncomputable def corrMatrix (cols : List (List (Option ℚ))) :
    List (List ℝ) :=
  cols.map (fun x => cols.map (fun y => pearsonR x y))

/-- Model of calculate_correlations (src/app.py:182-190): None (the
"insufficient data" report) when fewer than 7 rows; `.error` models the
KeyError escaping when a metric column is absent. -/
noncomputable def calculate_correlations (f : Frame) :
    Except Unit (Option (List (List ℝ))) :=
  if f.rows.length < 7 then .ok none
  else
    match numericColumns f with
    | some cols => .ok (some (corrMatrix cols))
    | none => .error ()

/-- The service-account info mapping handed to credential construction
(the Python dict of src/app.py:57-69; sa_type models its "type" key). -/
structure ServiceAccountInfo where
  sa_type : String
  project_id : Option String
  private_key_id : Option String
  private_key : Option String
  client_email : Option String
  client_id : Option String
  auth_uri : String
  token_uri : String
  auth_provider_x509_cert_url : String
  client_x509_cert_url : String
  universe_domain : String
deriving DecidableEq, Repr

/-- The credential sources the process's world can offer.  The two
file-based fields exist in the world; whether get_google_sheet ever reads
them is part of what is verified. -/
structure Env where
  mounted_secret_file : Option String
  local_json_file : Option String
  google_application_credentials_json : Option String
  gcp_type : Option String
  gcp_project_id : Option String
  gcp_private_key_id : Option String
  gcp_private_key : Option String
  gcp_client_email : Option String
  gcp_client_id : Option String
  gcp_service_account_secret : Option ServiceAccountInfo
deriving DecidableEq, Repr

/-- Python truthiness of os.environ.get(name): set and non-empty. -/
def truthyS : Option String → Bool
  | none => false
  | some s => !(s == "")

/-- The credentials dict built from the individual environment variables
(src/app.py:57-69), fields copied verbatim. -/
def envVarsInfo (env : Env) : ServiceAccountInfo :=
  { sa_type := env.gcp_type.getD "service_account"
  , project_id := env.gcp_project_id
  , private_key_id := env.gcp_private_key_id
  , private_key := env.gcp_private_key
  , client_email := env.gcp_client_email
  , client_id := env.gcp_client_id
  , auth_uri := "https://accounts.google.com/o/oauth2/auth"
  , token_uri := "https://oauth2.googleapis.com/token"
  , auth_provider_x509_cert_url := "https://www.googleapis.com/oauth2/v1/certs"
  , client_x509_cert_url :=
      "https://www.googleapis.com/robot/v1/metadata/x509/" ++
        env.gcp_client_email.getD "None"
  , universe_domain := "googleapis.com" }

/-- Credential resolution of get_google_sheet (src/app.py:31-90),
parameterized by a model of json.loads; the result is the constructed
service-account info, `none` both for the explicit no-credentials return
and for a decode error reaching the outer except. -/
def get_google_sheet_creds (jsonParse : String → Option ServiceAccountInfo)
    (env : Env) : Option ServiceAccountInfo :=
  if truthyS env.google_application_credentials_json then
    jsonParse (env.google_application_credentials_json.getD "")
  else if truthyS env.gcp_client_email then some (envVarsInfo env)
  else env.gcp_service_account_secret

/-- Left-to-right replacement of each two-character backslash-n escape by
a real line break. -/
def fixEscapes : List Char → List Char
  | '\\' :: 'n' :: rest => '\n' :: fixEscapes rest
  | c :: rest => c :: fixEscapes rest
  | [] => []

/-- Modelled from the spec: the private-key fix-up the spec prescribes,
turning literal two-character newline escapes into real line breaks. -/
def spec_fix_private_key (s : String) : String := String.mk (fixEscapes s.toList)

/-! Theorems.  Claim ids refer to the frozen claim list for this
repository. -/

/-- C10: when the worksheet handle cannot be obtained, load_data returns
the completely empty table with zero rows and zero columns, which in
particular does not carry the six expected columns. -/
theorem c10_load_on_connection_failure :
    (load_data none).cols = [] ∧ (load_data none).rows = [] ∧
      (load_data none).cols ≠ sixCols :=
  ⟨rfl, rfl, by decide⟩

/-- C6: on an empty or header-only sheet (at most one raw row), load_data
takes no error path and returns the zero-row table that still carries the
six expected columns. -/
theorem c6_load_header_only (data : List (List String))
    (h : data.length ≤ 1) :
    loadCore data = .ok { cols := sixCols, rows := [] } ∧
      load_data (some data) = { cols := sixCols, rows := [] } := by
  have h1 : loadCore data = .ok { cols := sixCols, rows := [] } := by
    cases data with
    | nil => rfl
    | cons r t =>
      cases t with
      | nil => rfl
      | cons r2 t2 =>
        exfalso
        simp only [List.length_cons] at h
        omega
  exact ⟨h1, by simp [load_data, h1]⟩

/-- Witness for c6_load_header_only at the empty sheet. -/
theorem c6_load_header_only_witness :
    loadCore [] = .ok { cols := sixCols, rows := [] } ∧
      load_data (some []) = { cols := sixCols, rows := [] } :=
  c6_load_header_only [] (by decide)

/-- C9: save_entry clears the cached load result exactly when it reports
success; a failed append (no connection, or a raising append_row) leaves
the cached result untouched. -/
theorem c9_cache_cleared_only_on_success (st : AppState) (d : Date)
    (ahi leak coherence energy : ℚ) (notes : String) :
    ((save_entry st d ahi leak coherence energy notes).2 = false →
      (save_entry st d ahi leak coherence energy notes).1.cache = st.cache) ∧
    ((save_entry st d ahi leak coherence energy notes).2 = true →
      (save_entry st d ahi leak coherence energy notes).1.cache = none) := by
  rcases hw : st.worksheet with _ | ws
  · constructor
    · intro _; simp [save_entry, hw]
    · intro h; simp [save_entry, hw] at h
  · by_cases hf : st.appendFails
    · constructor
      · intro _; simp [save_entry, hw, hf]
      · intro h; simp [save_entry, hw, hf] at h
    · constructor
      · intro h; simp [save_entry, hw, hf] at h
      · intro _; simp [save_entry, hw, hf]

/-- Witness for c9_cache_cleared_only_on_success: with no connection the
append fails and the cache is left as it was. -/
theorem c9_cache_cleared_only_on_success_witness :
    (save_entry (AppState.mk none (some { cols := sixCols, rows := [] })
        false) ⟨2024, 1, 5⟩ 1 2 3 4 "n").1.cache =
      some { cols := sixCols, rows := [] } :=
  (c9_cache_cleared_only_on_success _ _ _ _ _ _ _).1 rfl

/-- C8: with a connection and a non-raising append, save_entry reports
success and appends exactly one row, the date formatted YYYY-MM-DD and
the four metrics stringified, to the end of the sheet. -/
theorem c8_append_formats_one_row (st : AppState)
    (ws : List (List String)) (d : Date)
    (ahi leak coherence energy : ℚ) (notes : String)
    (hws : st.worksheet = some ws) (hok : st.appendFails = false) :
    (save_entry st d ahi leak coherence energy notes).2 = true ∧
    (save_entry st d ahi leak coherence energy notes).1.worksheet =
      some (ws ++ [[fmtDate d, pyStr ahi, pyStr leak, pyStr coherence,
        pyStr energy, notes]]) := by
  constructor <;> simp [save_entry, hws, hok]

/-- Witness for c8_append_formats_one_row on a header-only sheet. -/
theorem c8_append_formats_one_row_witness :
    (save_entry (AppState.mk (some [sixCols]) none false)
        ⟨2024, 1, 5⟩ 1 2 3 4 "n").1.worksheet =
      some ([sixCols] ++ [[fmtDate ⟨2024, 1, 5⟩, pyStr 1, pyStr 2, pyStr 3,
        pyStr 4, "n"]]) :=
  (c8_append_formats_one_row _ [sixCols] ⟨2024, 1, 5⟩ 1 2 3 4 "n" rfl rfl).2

/-- C2 counterexample: with credentials supplied through the individual
environment variables, a private key holding the literal two-character
escape backslash-n is passed through unchanged; the conversion to a real
line break that the claim asserts does not happen. -/
theorem c2_counterexample :
    get_google_sheet_creds (fun _ => none)
        (Env.mk none none none none none none (some "AB\\nCD")
          (some "bot@x") none none) =
      some (envVarsInfo (Env.mk none none none none none none
        (some "AB\\nCD") (some "bot@x") none none)) ∧
    (envVarsInfo (Env.mk none none none none none none (some "AB\\nCD")
        (some "bot@x") none none)).private_key = some "AB\\nCD" ∧
    spec_fix_private_key "AB\\nCD" = "AB\nCD" ∧
    ("AB\\nCD" : String) ≠ "AB\nCD" :=
  ⟨rfl, rfl, by decide, by decide⟩

/-- C2 amended: get_google_sheet performs no escape fix-up at all; when
the individual environment variables are the selected source, the
private-key field reaches credential construction verbatim. -/
theorem c2_private_key_verbatim
    (jsonParse : String → Option ServiceAccountInfo) (env : Env)
    (h1 : truthyS env.google_application_credentials_json = false)
    (h2 : truthyS env.gcp_client_email = true) :
    ∃ info, get_google_sheet_creds jsonParse env = some info ∧
      info.private_key = env.gcp_private_key := by
  refine ⟨envVarsInfo env, ?_, rfl⟩
  simp [get_google_sheet_creds, h1, h2]

/-- Witness for c2_private_key_verbatim. -/
theorem c2_private_key_verbatim_witness :
    ∃ info,
      get_google_sheet_creds (fun _ => none)
          (Env.mk none none none none none none (some "AB\\nCD")
            (some "bot@x") none none) = some info ∧
        info.private_key =
          (Env.mk none none none none none none (some "AB\\nCD")
            (some "bot@x") none none).gcp_private_key :=
  c2_private_key_verbatim (fun _ => none) _ rfl rfl

/-- C4 counterexample: a local credential file is present, yet credential
resolution fails, because get_google_sheet never consults file-based
sources; the claimed five-step resolution order does not hold. -/
theorem c4_counterexample :
    (Env.mk none (some "service-account.json") none none none none none
        none none none).local_json_file ≠ none ∧
    get_google_sheet_creds (fun _ => none)
        (Env.mk none (some "service-account.json") none none none none
          none none none none) = none :=
  ⟨by decide, rfl⟩

/-- C4 amended: resolution order is JSON-blob environment variable, then
individual environment variables, then the externally supplied secret,
first match wins; the file-based sources are never read, and with no
source present the result is none (connection failure). -/
theorem c4_resolution_order
    (jsonParse : String → Option ServiceAccountInfo) (env : Env) :
    get_google_sheet_creds jsonParse
        { env with mounted_secret_file := none, local_json_file := none } =
      get_google_sheet_creds jsonParse env ∧
    (truthyS env.google_application_credentials_json = true →
      get_google_sheet_creds jsonParse env =
        jsonParse (env.google_application_credentials_json.getD "")) ∧
    (truthyS env.google_application_credentials_json = false →
      truthyS env.gcp_client_email = true →
      get_google_sheet_creds jsonParse env = some (envVarsInfo env)) ∧
    (truthyS env.google_application_credentials_json = false →
      truthyS env.gcp_client_email = false →
      get_google_sheet_creds jsonParse env =
        env.gcp_service_account_secret) := by
  refine ⟨rfl, ?_, ?_, ?_⟩
  · intro h1; simp [get_google_sheet_creds, h1]
  · intro h1 h2; simp [get_google_sheet_creds, h1, h2]
  · intro h1 h2; simp [get_google_sheet_creds, h1, h2]

/-- Witness for c4_resolution_order: a malformed JSON blob wins over a
perfectly good secret that comes later in the order, so resolution
fails. -/
theorem c4_resolution_order_witness :
    get_google_sheet_creds (fun _ => none)
        (Env.mk none none (some "not json") none none none none none none
          (some (ServiceAccountInfo.mk "service_account" none none
            (some "K") (some "e@x") none "a" "t" "c" "u"
            "googleapis.com"))) = none :=
  (c4_resolution_order (fun _ => none) _).2.1 rfl


lemma aux_findIdx_mem {c : String} {l : List String} (h : c ∈ l) :
    ∃ i, l.findIdx? (fun s => s == c) = some i :=
  ⟨l.findIdx (fun s => s == c),
    List.findIdx?_eq_some_of_exists ⟨c, h, by simp⟩⟩

lemma aux_coerceCol_cols {f : Frame} {c : String} (g : Cell → Cell)
    (h : c ∈ f.cols) :
    ∃ f2, coerceCol f c g = some f2 ∧ f2.cols = f.cols := by
  obtain ⟨i, hi⟩ := aux_findIdx_mem h
  refine ⟨{ cols := f.cols,
            rows := f.rows.map (fun r => r.set i (g (r.getD i (Cell.str "")))) },
    ?_, rfl⟩
  unfold coerceCol
  rw [hi]

lemma aux_applyNumeric_cols (cs : List String) :
    ∀ (f : Frame), (∀ c ∈ cs, c ∈ f.cols) →
      ∃ f2, applyNumeric f cs = some f2 ∧ f2.cols = f.cols := by
  induction cs with
  | nil => intro f _; exact ⟨f, rfl, rfl⟩
  | cons c cs ih =>
    intro f h
    obtain ⟨f1, hf1, hc1⟩ := aux_coerceCol_cols toNumericCell (h c (by simp))
    obtain ⟨f2, hf2, hc2⟩ := ih f1 (by intro x hx; rw [hc1]; exact h x (by simp [hx]))
    refine ⟨f2, ?_, by rw [hc2, hc1]⟩
    unfold applyNumeric
    rw [hf1]
    exact hf2

lemma aux_insertRanked_perm (k : List Cell → Nat) (x : List Cell)
    (l : List (List Cell)) : (insertRanked k x l).Perm (x :: l) := by
  induction l with
  | nil => exact List.Perm.refl _
  | cons y ys ih =>
    unfold insertRanked
    by_cases h : k x ≤ k y
    · rw [if_pos h]
    · rw [if_neg h]
      exact (ih.cons y).trans (List.Perm.swap x y ys)

lemma aux_sortRows_perm (k : List Cell → Nat) (l : List (List Cell)) :
    (sortRows k l).Perm l := by
  induction l with
  | nil => exact List.Perm.refl _
  | cons x xs ih =>
    exact (aux_insertRanked_perm k x (sortRows k xs)).trans (ih.cons x)

lemma aux_six_elems {α : Type} {r : List α} (h : r.length = 6) :
    ∃ a b c d e f, r = [a, b, c, d, e, f] := by
  rcases r with _ | ⟨a, _ | ⟨b, _ | ⟨c, _ | ⟨d, _ | ⟨e, _ | ⟨f, _ | ⟨g, t⟩⟩⟩⟩⟩⟩⟩ <;>
    simp_all

lemma aux_loadCore_sixCols (body : List (List String)) (hne : body ≠ [])
    (hlen : ∀ r ∈ body, r.length = 6) :
    loadCore (sixCols :: body) =
      .ok (sortFrame { cols := sixCols, rows := body.map coercedRow }) := by
  obtain ⟨r1, rs, rfl⟩ := List.exists_cons_of_ne_nil hne
  have hall : (r1 :: rs).all (fun r => r.length == sixCols.length) = true := by
    rw [List.all_eq_true]
    intro r hr
    simpa using hlen r hr
  simp [loadCore, hall, coerceCol, applyNumeric, numericCols, sixCols,
    sortFrame, List.map_map]
  rw [if_pos ⟨hlen r1 (by simp), fun x hx => hlen x (by simp [hx])⟩]
  refine congrArg Except.ok ?_
  simp only [Frame.mk.injEq, List.cons.injEq, true_and]
  refine congrArg _ ?_
  simp only [List.cons.injEq]
  constructor
  · obtain ⟨a, b, c, d, e, f, rfl⟩ := aux_six_elems (hlen r1 (by simp))
    rfl
  · refine List.map_congr_left ?_
    intro x hx
    obtain ⟨a, b, c, d, e, f, rfl⟩ := aux_six_elems (hlen x (by simp [hx]))
    rfl


lemma aux_digitVal_digitChar (n : Nat) : digitVal (digitChar n) = some (n % 10) := by
  have h : n % 10 < 10 := Nat.mod_lt _ (by norm_num)
  unfold digitChar
  revert h
  generalize n % 10 = r
  intro h
  interval_cases r <;> decide

lemma aux_parseDate_fmtDate (d : Date) (h : validDate d) :
    parseDate (fmtDate d) = some d := by
  obtain ⟨h1, h2, h3, h4, h5, h6⟩ := h
  have h31 : d.day ≤ 31 :=
    le_trans h6 (by unfold daysInMonth; split_ifs <;> norm_num)
  rcases d with ⟨y, m, da⟩
  simp only at h1 h2 h3 h4 h5 h31
  simp only [fmtDate, parseDate, String.toList, allDigits,
    aux_digitVal_digitChar]
  have hy : 1000 * (y / 1000 % 10) + 100 * (y / 100 % 10) +
      10 * (y / 10 % 10) + y % 10 = y := by omega
  have hm : 10 * (m / 10 % 10) + m % 10 = m := by omega
  have hda : 10 * (da / 10 % 10) + da % 10 = da := by omega
  rw [hy, hm, hda]
  exact if_pos ⟨h3, h4, h5, h6⟩


/-- C1 amended: load_data performs no header normalization, aliasing, or
column synthesis.  With at least one data row and a header that contains
the exact lowercase names date, ahi, leak, coherence and energy, the
returned table's columns are exactly the header as written in the sheet,
in sheet order (notes is not required and nothing is synthesized). -/
theorem c1_cols_follow_sheet_header (header : List String)
    (body : List (List String)) (hne : body ≠ [])
    (hrect : ∀ r ∈ body, r.length = header.length)
    (hdate : "date" ∈ header) (hahi : "ahi" ∈ header)
    (hleak : "leak" ∈ header) (hcoh : "coherence" ∈ header)
    (hen : "energy" ∈ header) :
    ∃ f, loadCore (header :: body) = .ok f ∧
      load_data (some (header :: body)) = f ∧ f.cols = header := by
  obtain ⟨r1, rs, rfl⟩ := List.exists_cons_of_ne_nil hne
  have hall : (r1 :: rs).all (fun r => r.length == header.length) = true := by
    rw [List.all_eq_true]
    intro r hr
    simpa using hrect r hr
  obtain ⟨f1, hf1, hc1⟩ := aux_coerceCol_cols
    (f := { cols := header, rows := (r1 :: rs).map (fun r => r.map Cell.str) })
    toDatetimeCell hdate
  obtain ⟨f2, hf2, hc2⟩ := aux_applyNumeric_cols numericCols f1 (by
    intro c hc
    rw [hc1]
    simp only [numericCols, List.mem_cons, List.not_mem_nil, or_false] at hc
    rcases hc with rfl | rfl | rfl | rfl
    exacts [hahi, hleak, hcoh, hen])
  have hload : loadCore (header :: r1 :: rs) = .ok (sortFrame f2) := by
    simp only [loadCore]
    rw [if_pos hall]
    simp only [hf1, hf2]
  exact ⟨sortFrame f2, hload, by simp [load_data, hload],
    by simp [sortFrame, hc2, hc1]⟩

/-- Witness for c1_cols_follow_sheet_header: a permuted header is kept
verbatim, not reordered to the fixed six-column order. -/
theorem c1_cols_follow_sheet_header_witness :
    ∃ f, loadCore [["energy", "date", "ahi", "leak", "coherence", "notes"],
        ["5", "2024-01-05", "1", "2", "3", "ok"]] = .ok f ∧
      load_data (some [["energy", "date", "ahi", "leak", "coherence", "notes"],
        ["5", "2024-01-05", "1", "2", "3", "ok"]]) = f ∧
      f.cols = ["energy", "date", "ahi", "leak", "coherence", "notes"] :=
  c1_cols_follow_sheet_header _ _ (by decide) (by decide) (by decide)
    (by decide) (by decide) (by decide) (by decide)

/-- C1 counterexample: a case variant of the date header ("Date") makes
the load fail to the empty zero-column table, and an exactly permuted
header is returned in sheet order; neither yields the six expected
columns in fixed order as the claim asserts. -/
theorem c1_counterexample :
    (load_data (some [["Date", "ahi", "leak", "coherence", "energy", "notes"],
        ["2024-01-01", "1", "2", "3", "4", "x"]])).cols = [] ∧
    (load_data (some [["ahi", "date", "leak", "coherence", "energy", "notes"],
        ["1", "2024-01-01", "2", "3", "4", "x"]])).cols =
      ["ahi", "date", "leak", "coherence", "energy", "notes"] ∧
    ([] : List String) ≠ sixCols ∧
    ["ahi", "date", "leak", "coherence", "energy", "notes"] ≠ sixCols :=
  ⟨by decide, by decide, by decide, by decide⟩

/-- C7: with the canonical header, per-cell date/numeric parse failures
degrade to the null marker (`none` inside the cell) and the load still
succeeds with all rows present (as a permutation, since load sorts);
coercedRow maps an unparseable date cell to Cell.date none and an
unparseable numeric cell to Cell.num none. -/
theorem c7_parse_failures_nonfatal (body : List (List String))
    (hne : body ≠ []) (hlen : ∀ r ∈ body, r.length = 6) :
    ∃ f, loadCore (sixCols :: body) = .ok f ∧
      load_data (some (sixCols :: body)) = f ∧
      f.cols = sixCols ∧ f.rows.Perm (body.map coercedRow) := by
  refine ⟨_, aux_loadCore_sixCols body hne hlen, ?_, rfl,
    aux_sortRows_perm _ _⟩
  simp [load_data, aux_loadCore_sixCols body hne hlen]

/-- Witness for c7_parse_failures_nonfatal: a row whose date and ahi
cells are unparseable still loads. -/
theorem c7_parse_failures_nonfatal_witness :
    ∃ f, loadCore (sixCols :: [["garbage", "x", "2", "3", "4", "note"]]) =
        .ok f ∧
      load_data (some (sixCols :: [["garbage", "x", "2", "3", "4", "note"]])) =
        f ∧
      f.cols = sixCols ∧
      f.rows.Perm ([["garbage", "x", "2", "3", "4", "note"]].map coercedRow) :=
  c7_parse_failures_nonfatal _ (by decide) (by decide)

/-- C5 amended: save_entry followed by load_data on the updated
worksheet (cache bypassed) succeeds and the loaded table contains the
appended row in coerced form: the date cell holds the parsed date value
equal to the calendar day save_entry formatted (not the literal string),
and the metric cells hold the reparsed numeric strings. -/
theorem c5_append_then_load (st : AppState) (rest : List (List String))
    (d : Date) (ahi leak coherence energy : ℚ) (notes : String)
    (hws : st.worksheet = some (sixCols :: rest))
    (hok : st.appendFails = false)
    (hlen : ∀ r ∈ rest, r.length = 6)
    (hd : validDate d) :
    (save_entry st d ahi leak coherence energy notes).2 = true ∧
    coercedRow [fmtDate d, pyStr ahi, pyStr leak, pyStr coherence,
        pyStr energy, notes] ∈
      (load_data
        (save_entry st d ahi leak coherence energy notes).1.worksheet).rows ∧
    (coercedRow [fmtDate d, pyStr ahi, pyStr leak, pyStr coherence,
        pyStr energy, notes]).getD 0 (Cell.str "") = Cell.date (some d) := by
  have hs : (save_entry st d ahi leak coherence energy notes).1.worksheet =
      some (sixCols :: (rest ++ [[fmtDate d, pyStr ahi, pyStr leak,
        pyStr coherence, pyStr energy, notes]])) := by
    simp [save_entry, hws, hok]
  have hb : rest ++ [[fmtDate d, pyStr ahi, pyStr leak, pyStr coherence,
      pyStr energy, notes]] ≠ [] := by simp
  have hl : ∀ r ∈ rest ++ [[fmtDate d, pyStr ahi, pyStr leak, pyStr coherence,
      pyStr energy, notes]], r.length = 6 := by
    intro r hr
    rcases List.mem_append.mp hr with h | h
    · exact hlen r h
    · simp only [List.mem_singleton] at h
      subst h
      rfl
  refine ⟨by simp [save_entry, hws, hok], ?_, ?_⟩
  · rw [hs]
    simp [load_data, aux_loadCore_sixCols _ hb hl, sortFrame]
    refine ((aux_sortRows_perm _ _).mem_iff).mpr ?_
    simp
  · simp [coercedRow, aux_parseDate_fmtDate d hd]

/-- Witness for c5_append_then_load on a header-only sheet. -/
theorem c5_append_then_load_witness :
    (save_entry (AppState.mk (some (sixCols :: [])) none false)
        ⟨2024, 1, 5⟩ 1 2 3 4 "ok").2 = true ∧
    coercedRow [fmtDate ⟨2024, 1, 5⟩, pyStr 1, pyStr 2, pyStr 3, pyStr 4,
        "ok"] ∈
      (load_data (save_entry (AppState.mk (some (sixCols :: [])) none false)
        ⟨2024, 1, 5⟩ 1 2 3 4 "ok").1.worksheet).rows ∧
    (coercedRow [fmtDate ⟨2024, 1, 5⟩, pyStr 1, pyStr 2, pyStr 3, pyStr 4,
        "ok"]).getD 0 (Cell.str "") = Cell.date (some ⟨2024, 1, 5⟩) :=
  c5_append_then_load _ [] ⟨2024, 1, 5⟩ 1 2 3 4 "ok" rfl rfl (by decide)
    (by decide)

/-- C5 counterexample: after appending the literal string "2024-01-05",
the reloaded table's date cell is the parsed Cell.date value; no cell of
the loaded row is the literal string cell the claim asserts. -/
theorem c5_counterexample :
    (save_entry (AppState.mk (some [sixCols]) none false)
        ⟨2024, 1, 5⟩ 1 2 3 4 "ok").1.worksheet =
      some [sixCols, [fmtDate ⟨2024, 1, 5⟩, pyStr 1, pyStr 2, pyStr 3,
        pyStr 4, "ok"]] ∧
    fmtDate ⟨2024, 1, 5⟩ = "2024-01-05" ∧
    (load_data (some [sixCols, [fmtDate ⟨2024, 1, 5⟩, pyStr 1, pyStr 2,
        pyStr 3, pyStr 4, "ok"]])).rows.length = 1 ∧
    ((load_data (some [sixCols, [fmtDate ⟨2024, 1, 5⟩, pyStr 1, pyStr 2,
        pyStr 3, pyStr 4, "ok"]])).rows.getD 0 []).getD 0 (Cell.str "") =
      Cell.date (some ⟨2024, 1, 5⟩) ∧
    Cell.str "2024-01-05" ∉
      (load_data (some [sixCols, [fmtDate ⟨2024, 1, 5⟩, pyStr 1, pyStr 2,
        pyStr 3, pyStr 4, "ok"]])).rows.getD 0 [] :=
  ⟨by decide, by decide, by decide, by decide, by decide⟩


lemma aux_sxxOf_eq (l : List ℚ) :
    sxxOf l = (l.map (fun a => (a - meanQ l) * (a - meanQ l))).sum := by
  unfold sxxOf sxyOf
  simp [List.map_map, Function.comp_def]

lemma aux_sxxOf_nonneg (l : List ℚ) : 0 ≤ sxxOf l := by
  rw [aux_sxxOf_eq]
  apply List.sum_nonneg
  intro x hx
  simp only [List.mem_map] at hx
  obtain ⟨a, _, rfl⟩ := hx
  exact mul_self_nonneg _

lemma aux_sxxOf_zero {l : List ℚ} (hz : sxxOf l = 0) :
    ∀ a ∈ l, a = meanQ l := by
  rw [aux_sxxOf_eq] at hz
  intro a ha
  have hterm : (a - meanQ l) * (a - meanQ l) = 0 := by
    refine List.all_zero_of_le_zero_le_of_sum_eq_zero ?_ hz
      (List.mem_map_of_mem _ ha)
    intro x hx
    simp only [List.mem_map] at hx
    obtain ⟨b, _, rfl⟩ := hx
    exact mul_self_nonneg _
  have h0 : a - meanQ l = 0 := by
    rcases mul_eq_zero.mp hterm with h | h <;> exact h
  linarith

lemma aux_sxxOf_ne_zero {l : List ℚ} {a b : ℚ} (ha : a ∈ l) (hb : b ∈ l)
    (hab : a ≠ b) : sxxOf l ≠ 0 := by
  intro hz
  exact hab ((aux_sxxOf_zero hz a ha).trans (aux_sxxOf_zero hz b hb).symm)

lemma aux_completePairs_self (x : List (Option ℚ)) :
    completePairs x x = (x.filterMap id).map (fun a => (a, a)) := by
  induction x with
  | nil => rfl
  | cons c t ih => cases c <;> simp [completePairs, ih]

lemma aux_pearsonR_self {x : List (Option ℚ)}
    (h : sxxOf (x.filterMap id) ≠ 0) : pearsonR x x = 1 := by
  unfold pearsonR
  rw [aux_completePairs_self x]
  have hfst : ((x.filterMap id).map (fun a => (a, a))).map Prod.fst =
      x.filterMap id := by
    simp [List.map_map, Function.comp_def]
  have hsnd : ((x.filterMap id).map (fun a => (a, a))).map Prod.snd =
      x.filterMap id := by
    simp [List.map_map, Function.comp_def]
  rw [hfst, hsnd]
  have hnum : sxyOf ((x.filterMap id).map (fun a => (a, a))) =
      sxxOf (x.filterMap id) := rfl
  rw [hnum]
  have hpos : 0 < sxxOf (x.filterMap id) :=
    lt_of_le_of_ne (aux_sxxOf_nonneg _) (Ne.symm h)
  have hcast : (0 : ℝ) < ((sxxOf (x.filterMap id) : ℚ) : ℝ) := by
    exact_mod_cast hpos
  rw [show ((sxxOf (x.filterMap id) : ℚ) : ℝ) *
      ((sxxOf (x.filterMap id) : ℚ) : ℝ) =
      ((sxxOf (x.filterMap id) : ℚ) : ℝ) ^ 2 by ring]
  rw [Real.sqrt_sq hcast.le]
  exact div_self (ne_of_gt hcast)

lemma aux_numericColumns_len {f : Frame} {cols : List (List (Option ℚ))}
    (h : numericColumns f = some cols) : cols.length = 4 := by
  unfold numericColumns at h
  cases h1 : getCol f "ahi" <;> cases h2 : getCol f "leak" <;>
    cases h3 : getCol f "coherence" <;> cases h4 : getCol f "energy" <;>
    rw [h1, h2, h3, h4] at h <;> simp_all
  subst h
  rfl

/-- C3 amended: calculate_correlations reports "insufficient data"
(None) exactly when the table has fewer than 7 rows.  With 7 or more rows
it computes the 4x4 pairwise Pearson matrix over the four metric columns
when they are all present, and raises (KeyError) rather than reporting
insufficient data when one is absent; a diagonal entry equals 1.0 when
its column has two distinct values (nonzero variance). -/
theorem c3_correlations (f : Frame) :
    (calculate_correlations f = .ok none ↔ f.rows.length < 7) ∧
    (∀ cols, 7 ≤ f.rows.length → numericColumns f = some cols →
      calculate_correlations f = .ok (some (corrMatrix cols)) ∧
      cols.length = 4 ∧
      (corrMatrix cols).length = 4 ∧
      (∀ row ∈ corrMatrix cols, row.length = 4) ∧
      (∀ i, i < 4 →
        ((corrMatrix cols).getD i []).getD i 0 =
          pearsonR (cols.getD i []) (cols.getD i [])) ∧
      (∀ x ∈ cols,
        (∃ a ∈ x.filterMap id, ∃ b ∈ x.filterMap id, a ≠ b) →
          pearsonR x x = 1)) ∧
    (7 ≤ f.rows.length → numericColumns f = none →
      calculate_correlations f = .error ()) := by
  refine ⟨⟨?_, ?_⟩, ?_, ?_⟩
  · intro h
    by_contra hlt
    rw [Nat.not_lt] at hlt
    unfold calculate_correlations at h
    rw [if_neg (Nat.not_lt.mpr hlt)] at h
    cases hc : numericColumns f <;> rw [hc] at h <;> simp at h
  · intro h
    unfold calculate_correlations
    rw [if_pos h]
  · intro cols h7 hcols
    have h4len : cols.length = 4 := aux_numericColumns_len hcols
    have hmain : calculate_correlations f = .ok (some (corrMatrix cols)) := by
      unfold calculate_correlations
      rw [if_neg (Nat.not_lt.mpr h7), hcols]
    refine ⟨hmain, h4len, by simp [corrMatrix, h4len], ?_, ?_, ?_⟩
    · intro row hrow
      simp only [corrMatrix, List.mem_map] at hrow
      obtain ⟨x, _, rfl⟩ := hrow
      simp [h4len]
    · intro i hi
      have hi' : i < cols.length := by rw [h4len]; exact hi
      simp only [corrMatrix, List.getD_eq_getElem?_getD, List.getElem?_map]
      rw [List.getElem?_eq_getElem hi']
      simp [List.getElem?_map, List.getElem?_eq_getElem hi', List.getD_eq_getElem?_getD]
    · intro x hx ⟨a, ha, b, hb, hab⟩
      exact aux_pearsonR_self (aux_sxxOf_ne_zero ha hb hab)
  · intro h7 hnone
    unfold calculate_correlations
    rw [if_neg (Nat.not_lt.mpr h7), hnone]


/-- Witness for c3_correlations: a 7-row table with all four metric
columns present and nonconstant gets a correlation matrix whose diagonal
entry is 1. -/
theorem c3_correlations_witness :
    calculate_correlations
        ⟨sixCols,
          [Cell.date none, Cell.num (some 2), Cell.num (some 2),
            Cell.num (some 2), Cell.num (some 2), Cell.str ""] ::
            List.replicate 6 [Cell.date none, Cell.num (some 1),
              Cell.num (some 1), Cell.num (some 1), Cell.num (some 1),
              Cell.str ""]⟩ =
      .ok (some (corrMatrix
        [some 2 :: List.replicate 6 (some 1),
         some 2 :: List.replicate 6 (some 1),
         some 2 :: List.replicate 6 (some 1),
         some 2 :: List.replicate 6 (some 1)])) ∧
    pearsonR (some 2 :: List.replicate 6 (some 1))
      (some 2 :: List.replicate 6 (some 1)) = 1 := by
  have h := (c3_correlations
    ⟨sixCols,
      [Cell.date none, Cell.num (some 2), Cell.num (some 2),
        Cell.num (some 2), Cell.num (some 2), Cell.str ""] ::
        List.replicate 6 [Cell.date none, Cell.num (some 1),
          Cell.num (some 1), Cell.num (some 1), Cell.num (some 1),
          Cell.str ""]⟩).2.1
    [some 2 :: List.replicate 6 (some 1),
     some 2 :: List.replicate 6 (some 1),
     some 2 :: List.replicate 6 (some 1),
     some 2 :: List.replicate 6 (some 1)] (by decide) (by decide)
  exact ⟨h.1, h.2.2.2.2.2 (some 2 :: List.replicate 6 (some 1))
    (by decide) ⟨2, by decide, 1, by decide, by decide⟩⟩

/-- C3 counterexample: (a) a 7-row table missing the ahi column makes
calculate_correlations raise (model: .error) instead of reporting
insufficient data, refuting the claimed iff; (b) with a constant column
the diagonal entry of the matrix is 0 (NaN in pandas), not 1.0. -/
theorem c3_counterexample :
    (Frame.mk ["date", "leak", "coherence", "energy", "notes"]
        (List.replicate 7 [Cell.date none, Cell.num (some 1),
          Cell.num (some 1), Cell.num (some 1), Cell.str ""])).rows.length =
      7 ∧
    numericColumns (Frame.mk ["date", "leak", "coherence", "energy", "notes"]
        (List.replicate 7 [Cell.date none, Cell.num (some 1),
          Cell.num (some 1), Cell.num (some 1), Cell.str ""])) = none ∧
    calculate_correlations
        (Frame.mk ["date", "leak", "coherence", "energy", "notes"]
          (List.replicate 7 [Cell.date none, Cell.num (some 1),
            Cell.num (some 1), Cell.num (some 1), Cell.str ""])) =
      .error () ∧
    calculate_correlations
        (Frame.mk sixCols (List.replicate 7 [Cell.date none,
          Cell.num (some 1), Cell.num (some 1), Cell.num (some 1),
          Cell.num (some 1), Cell.str ""])) =
      .ok (some (corrMatrix [List.replicate 7 (some 1),
        List.replicate 7 (some 1), List.replicate 7 (some 1),
        List.replicate 7 (some 1)])) ∧
    ((corrMatrix [List.replicate 7 (some 1), List.replicate 7 (some 1),
        List.replicate 7 (some 1),
        List.replicate 7 (some 1)]).getD 0 []).getD 0 0 =
      pearsonR (List.replicate 7 (some 1)) (List.replicate 7 (some 1)) ∧
    pearsonR (List.replicate 7 (some 1)) (List.replicate 7 (some 1)) = 0 ∧
    (0 : ℝ) ≠ 1 := by
  have hcp : completePairs (List.replicate 7 (some (1 : ℚ)))
      (List.replicate 7 (some 1)) = List.replicate 7 (1, 1) := by decide
  have hs : sxyOf (List.replicate 7 ((1 : ℚ), 1)) = 0 := by
    norm_num [sxyOf, meanQ, List.map_replicate, List.sum_replicate,
      nsmul_eq_mul]
  have hss : sxxOf (List.replicate 7 (1 : ℚ)) = 0 := by
    norm_num [sxxOf, sxyOf, meanQ, List.map_replicate, List.sum_replicate,
      nsmul_eq_mul]
  have hp : pearsonR (List.replicate 7 (some (1 : ℚ)))
      (List.replicate 7 (some 1)) = 0 := by
    unfold pearsonR
    rw [hcp]
    rw [show (List.replicate 7 ((1 : ℚ), (1 : ℚ))).map Prod.fst =
      List.replicate 7 (1 : ℚ) by simp [List.map_replicate]]
    rw [show (List.replicate 7 ((1 : ℚ), (1 : ℚ))).map Prod.snd =
      List.replicate 7 (1 : ℚ) by simp [List.map_replicate]]
    rw [hs, hss]
    norm_num
  exact ⟨by decide, by decide, rfl, rfl, rfl, hp, by norm_num⟩

end HealthTracker
